import Mathlib

/-!
# Verification of the CCTV GIS backend (starter-kit/index.js)

A shallow embedding of the request handlers of `src/starter-kit/index.js`:
the camera list endpoint (`GET /api/cameras`), the single-camera endpoint
(`GET /api/cameras/:id`) and the three telemetry endpoints (`POST /view-start`,
`POST /heartbeat`, `POST /view-end`), together with the Prometheus metric
instruments they update.

External collaborators (the PostGIS store, the `prom-client` instruments and
the `ua-parser-js` library) are embedded at the interface the specification
gives them; each such definition carries a doc comment saying so.
-/

namespace CCTV

/-! ## JavaScript string-to-number coercion

`index.js` line 118 runs `bbox.split(',').map(Number)`; the validation on
line 119 then checks `parts.length !== 4 || parts.some((n) => Number.isNaN(n))`.
We embed the ECMAScript `ToNumber` coercion of a string: leading/trailing
whitespace is trimmed, the empty remainder is `0`, signed `Infinity` is
accepted, `0x`/`0o`/`0b` radix literals are accepted unsigned, and otherwise
a signed decimal literal (integer part, optional fraction, optional exponent)
is parsed; anything else is `NaN`. -/

/-- A JavaScript number as far as the bbox path observes it: `NaN`, the two
infinities, or a finite value (embedded as a rational, since the handler only
ever compares these values). -/
inductive JSNum where
  | nan : JSNum
  | posInf : JSNum
  | negInf : JSNum
  | num : ℚ → JSNum
deriving DecidableEq

/-- ECMAScript `StrWhiteSpace` characters (the common ones). -/
def isJsSpace (c : Char) : Bool :=
  c = ' ' ∨ c = '\t' ∨ c = '\n' ∨ c = '\r' ∨ c = '\x0b' ∨ c = '\x0c' ∨
  c = ' ' ∨ c = '﻿'

def digitVal (c : Char) : Option ℕ :=
  if c.isDigit then some (c.toNat - 48) else none

/-- Split a leading run of decimal digits off a character list. -/
def takeDigits : List Char → List ℕ × List Char
  | [] => ([], [])
  | c :: cs =>
    match digitVal c with
    | some d => let (ds, rest) := takeDigits cs; (d :: ds, rest)
    | none => ([], c :: cs)

def natOfDigits (ds : List ℕ) : ℕ :=
  ds.foldl (fun a d => a * 10 + d) 0

/-- The value of `ip . fp` as a rational. -/
def decValue (ip fp : List ℕ) : ℚ :=
  (natOfDigits ip : ℚ) + (natOfDigits fp : ℚ) / (10 : ℚ) ^ fp.length

/-- Exponent digits: the whole remainder must be a nonempty digit run. -/
def expDigits (cs : List Char) : Option ℕ :=
  let (ds, r) := takeDigits cs
  if ds.isEmpty ∨ ¬ r.isEmpty then none else some (natOfDigits ds)

def parseSignedExp : List Char → Option ℤ
  | '+' :: cs => (expDigits cs).map Int.ofNat
  | '-' :: cs => (expDigits cs).map (fun n => -(Int.ofNat n))
  | cs => (expDigits cs).map Int.ofNat

/-- An optional `e`/`E` exponent part closing the literal; `some 0` if the
remainder is empty. -/
def parseExpTail : List Char → Option ℤ
  | [] => some 0
  | 'e' :: cs => parseSignedExp cs
  | 'E' :: cs => parseSignedExp cs
  | _ => none

/-- An unsigned decimal literal: `digits [. digits] [exp]` or `. digits [exp]`. -/
def parseUnsignedDec (cs : List Char) : Option ℚ :=
  let (ip, r1) := takeDigits cs
  if ip.isEmpty then
    match r1 with
    | '.' :: r2 =>
      let (fp, r3) := takeDigits r2
      if fp.isEmpty then none
      else (parseExpTail r3).map (fun e => decValue [] fp * (10 : ℚ) ^ e)
    | _ => none
  else
    match r1 with
    | '.' :: r2 =>
      let (fp, r3) := takeDigits r2
      (parseExpTail r3).map (fun e => decValue ip fp * (10 : ℚ) ^ e)
    | _ => (parseExpTail r1).map (fun e => decValue ip [] * (10 : ℚ) ^ e)

/-- The value of a digit in radix 2, 8 or 16, if valid. -/
def radixDigitVal (radix : ℕ) (c : Char) : Option ℕ :=
  let v : Option ℕ :=
    if c.isDigit then some (c.toNat - 48)
    else if 'a' ≤ c ∧ c ≤ 'f' then some (c.toNat - 87)
    else if 'A' ≤ c ∧ c ≤ 'F' then some (c.toNat - 55)
    else none
  match v with
  | some d => if d < radix then some d else none
  | none => none

/-- A nonempty all-digit run in the given radix, consuming the whole list. -/
def radixNat (radix : ℕ) : List Char → Option ℕ
  | [] => none
  | cs =>
    let step : Option ℕ → Char → Option ℕ := fun acc c =>
      match acc, radixDigitVal radix c with
      | some a, some d => some (a * radix + d)
      | _, _ => none
    cs.foldl step (some 0)

def parseDecSigned (cs : List Char) : JSNum :=
  match cs with
  | '+' :: rest =>
    match parseUnsignedDec rest with
    | some q => .num q
    | none => .nan
  | '-' :: rest =>
    match parseUnsignedDec rest with
    | some q => .num (-q)
    | none => .nan
  | _ =>
    match parseUnsignedDec cs with
    | some q => .num q
    | none => .nan

/-- Comma-splitting of a character list: the core of JavaScript
`String.prototype.split(',')`. Splitting the empty list yields one empty
part, and a trailing comma yields a trailing empty part, as in JS. -/
def splitCommaAux : List Char → List (List Char)
  | [] => [[]]
  | c :: rest =>
    let r := splitCommaAux rest
    if c = ',' then [] :: r
    else
      match r with
      | [] => [[c]]
      | p :: ps => (c :: p) :: ps

/-- JavaScript `s.split(',')`, as `bbox.split(',')` does on `index.js`
line 118. -/
def jsSplitComma (s : String) : List String :=
  (splitCommaAux s.toList).map (fun cs => String.mk cs)

/-- ECMAScript `ToNumber` applied to a string, as `Number(part)` does on
`index.js` line 118. -/
def jsStringToNumber (s : String) : JSNum :=
  let cs := ((s.toList.dropWhile isJsSpace).reverse.dropWhile isJsSpace).reverse
  match cs with
  | [] => .num 0
  | _ =>
    if cs = "Infinity".toList ∨ cs = "+Infinity".toList then .posInf
    else if cs = "-Infinity".toList then .negInf
    else
      match cs with
      | '0' :: x :: rest =>
        if x = 'x' ∨ x = 'X' then
          match radixNat 16 rest with
          | some n => .num n
          | none => .nan
        else if x = 'o' ∨ x = 'O' then
          match radixNat 8 rest with
          | some n => .num n
          | none => .nan
        else if x = 'b' ∨ x = 'B' then
          match radixNat 2 rest with
          | some n => .num n
          | none => .nan
        else parseDecSigned cs
      | _ => parseDecSigned cs

/-! ## Camera catalog and the `GET /api/cameras` handlers -/

/-- A row of the `cameras` table (schema.sql), with the stored point already
decoded to longitude/latitude (the handlers only ever read `ST_X`/`ST_Y` of
`geom`). Coordinates are embedded as rationals. -/
structure Camera where
  id : String
  name : String
  role : String
  streamUrl : String
  isActive : Bool
  videoProfile : String
  width : ℤ
  height : ℤ
  fps : ℤ
  audioEnabled : Bool
  lastStatus : Option String
  lastChecked : Option String
  lng : ℚ
  lat : ℚ
deriving DecidableEq

/-- The row shape produced by the list query's SELECT (`index.js` lines
134-139): every column of the detail query except `stream_url`. -/
structure ListRow where
  id : String
  name : String
  role : String
  width : ℤ
  height : ℤ
  fps : ℤ
  videoProfile : String
  audioEnabled : Bool
  lastStatus : Option String
  lastChecked : Option String
  lng : ℚ
  lat : ℚ
deriving DecidableEq

/-- The column list of the list query's SELECT (`index.js` lines 134-137). -/
def camerasListColumns : List String :=
  ["id", "name", "role", "width", "height", "fps", "video_profile",
   "audio_enabled", "last_status", "last_checked", "lng", "lat"]

/-- The column list of the single-camera SELECT (`index.js` lines 157-160). -/
def cameraDetailColumns : List String :=
  ["id", "name", "role", "stream_url", "width", "height", "fps",
   "video_profile", "audio_enabled", "last_status", "last_checked",
   "lng", "lat"]

/-- Projection of a catalog row to the list query's column set. -/
def projectListRow (cam : Camera) : ListRow :=
  { id := cam.id, name := cam.name, role := cam.role, width := cam.width,
    height := cam.height, fps := cam.fps, videoProfile := cam.videoProfile,
    audioEnabled := cam.audioEnabled, lastStatus := cam.lastStatus,
    lastChecked := cam.lastChecked, lng := cam.lng, lat := cam.lat }

/-- The WHERE clauses the handler pushes (`index.js` lines 127 and 131):
`ST_Contains(ST_MakeEnvelope(minLng, minLat, maxLng, maxLat, 4326), geom)`
and `role = $n`. -/
inductive WhereClause where
  | containsEnvelope (minLng minLat maxLng maxLat : JSNum)
  | roleEq (r : String)
deriving DecidableEq

/-- JavaScript truthiness of an optional string value (`if (bbox)`,
`if (role)`, `if (!camera_id)`): absent and empty strings are falsy. -/
def truthy : Option String → Bool
  | none => false
  | some s => s ≠ ""

/-- The bbox validation error body (`index.js` line 122). -/
def bboxErrorMsg : String :=
  "bbox must be four numeric values: minLng,minLat,maxLng,maxLat"

/-- The bbox validation and clause construction (`index.js` lines 118-127):
reject unless the coerced parts are exactly four values none of which is
`NaN`; the four parts are used in source order as
`minLng, minLat, maxLng, maxLat`. -/
def bboxClause (parts : List JSNum) : Except String WhereClause :=
  match parts with
  | [minLng, minLat, maxLng, maxLat] =>
    if minLng = .nan ∨ minLat = .nan ∨ maxLng = .nan ∨ maxLat = .nan then
      .error bboxErrorMsg
    else .ok (.containsEnvelope minLng minLat maxLng maxLat)
  | _ => .error bboxErrorMsg

/-- The WHERE-clause list `GET /api/cameras` builds from its two query
parameters (`index.js` lines 115-133), or the 400 error it returns instead.
The bbox branch runs only when `bbox` is truthy; it splits on commas and
coerces each part with `Number` before validating. The role branch runs only
when `role` is truthy and pushes an exact-equality clause. -/
def buildCamerasQuery (bbox role : Option String) : Except String (List WhereClause) :=
  let fromBbox : Except String (List WhereClause) :=
    match bbox with
    | none => .ok []
    | some s =>
      if s = "" then .ok []
      else
        match bboxClause ((jsSplitComma s).map jsStringToNumber) with
        | .error e => .error e
        | .ok cl => .ok [cl]
  match fromBbox with
  | .error e => .error e
  | .ok cls =>
    match role with
    | none => .ok cls
    | some r => if r = "" then .ok cls else .ok (cls ++ [.roleEq r])

/-- Modelled from the spec: the point-geometry catalog store is an external
collaborator (PostgreSQL + PostGIS) whose code is not part of the repository;
§6 gives its contract — "return all records whose point lies within envelope
[minLng,minLat]-[maxLng,maxLat]", a closed planar containment test (§4.1),
"optionally AND'ed with an exact-match role filter". A `NaN` bound never
reaches this evaluation (the handler rejects it first); infinite bounds
compare as in IEEE order. -/
def evalClause (cam : Camera) : WhereClause → Bool
  | .containsEnvelope minLng minLat maxLng maxLat =>
    let lower : JSNum → ℚ → Bool := fun b x =>
      match b with
      | .nan => false
      | .negInf => true
      | .posInf => false
      | .num q => q ≤ x
    let upper : ℚ → JSNum → Bool := fun x b =>
      match b with
      | .nan => false
      | .negInf => false
      | .posInf => true
      | .num q => x ≤ q
    lower minLng cam.lng && upper cam.lng maxLng &&
      lower minLat cam.lat && upper cam.lat maxLat
  | .roleEq r => cam.role = r

/-- Run the list query: keep the catalog rows satisfying the conjunction of
the WHERE clauses and project them to the list column set. -/
def runCamerasQuery (catalog : List Camera) (cls : List WhereClause) : List ListRow :=
  (catalog.filter fun cam => cls.all (evalClause cam)).map projectListRow

/-- Response of `GET /api/cameras`: HTTP 400 with an error body, or HTTP 200
with the selected rows. -/
inductive CamerasListResponse where
  | badRequest (msg : String)
  | ok (rows : List ListRow)
deriving DecidableEq

/-- `GET /api/cameras` (`index.js` lines 112-146): build the WHERE clauses
from `bbox` and `role` (returning the 400 on a malformed bbox before any
store access) and otherwise run the query against the catalog. -/
def listCamerasHandler (catalog : List Camera) (bbox role : Option String) :
    CamerasListResponse :=
  match buildCamerasQuery bbox role with
  | .error e => .badRequest e
  | .ok cls => .ok (runCamerasQuery catalog cls)

/-- The rows of a list response (empty for the error case). -/
def rowsOf : CamerasListResponse → List ListRow
  | .badRequest _ => []
  | .ok rows => rows

/-- Response of `GET /api/cameras/:id`: HTTP 404, or HTTP 200 with the full
record — the detail SELECT (`index.js` lines 157-160) reads every column
including `stream_url`. (The catch-all 500 branch on line 171 is reachable
only through a store failure, which the pure store model cannot raise.) -/
inductive CameraDetailResponse where
  | notFound
  | ok (row : Camera)
deriving DecidableEq

/-- The HTTP status the two detail outcomes carry (`index.js` lines 166, 168);
the store-failure branch on line 171 would carry 500. -/
def detailStatus : CameraDetailResponse → ℕ
  | .notFound => 404
  | .ok _ => 200

/-- `GET /api/cameras/:id` (`index.js` lines 153-173): `WHERE id = $1`, 404
when no row matches, otherwise the first matching row in full. -/
def getCameraHandler (catalog : List Camera) (id : String) : CameraDetailResponse :=
  match catalog.filter (fun cam => cam.id = id) with
  | [] => .notFound
  | cam :: _ => .ok cam

/-! ## Client context resolution -/

/-- `getClientIp` (`index.js` lines 68-77): take the first comma-separated,
whitespace-trimmed entry of a non-empty `x-forwarded-for` header, else the
socket's remote address, else the empty string. -/
def getClientIp (xff remoteAddress : Option String) : String :=
  match xff with
  | some s =>
    if s.length > 0 then ((jsSplitComma s).map String.trim).headD ""
    else remoteAddress.getD ""
  | none => remoteAddress.getD ""

/-- `getCountry` (`index.js` lines 80-90). Modelled from the spec for the
lookup itself: the geolocation database is an external collaborator (§6,
"given an address string, return a country code or fail"); a loaded reader is
a lookup function whose `none` covers both a thrown lookup error and a
response without a country code. Any failure, a missing reader or an empty
address yields the `'ZZ'` sentinel. -/
def getCountry (geoReader : Option (String → Option String)) (ip : String) : String :=
  match geoReader with
  | some lookup => if ip ≠ "" then (lookup ip).getD "ZZ" else "ZZ"
  | none => "ZZ"

/-- The browser allow-list (`index.js` line 98). -/
def knownBrowsers : List String := ["Chrome", "Firefox", "Safari", "Edge"]

/-- The OS allow-list (`index.js` line 99). -/
def knownOS : List String := ["Windows", "macOS", "iOS", "Android", "Linux"]

/-- JavaScript `name || 'Other'` (`index.js` lines 95-96): an absent or empty
parser result falls back to `'Other'`. -/
def nameOrOther (name : Option String) : String :=
  match name with
  | none => "Other"
  | some s => if s = "" then "Other" else s

/-- The browser half of `parseUA` (`index.js` lines 95, 100): keep the parsed
name only if it is on the allow-list, else `'Other'`. -/
def normalizeBrowser (name : Option String) : String :=
  let b := nameOrOther name
  if b ∈ knownBrowsers then b else "Other"

/-- The OS half of `parseUA` (`index.js` lines 96, 101). -/
def normalizeOS (name : Option String) : String :=
  let o := nameOrOther name
  if o ∈ knownOS then o else "Other"

/-- `parseUA` (`index.js` lines 93-103), applied to the output of the external
`ua-parser-js` parser. The parser is modelled at its §6 contract — "given a
raw header string, return vendor browser-name and OS-name strings" — so its
two (possibly absent) name outputs are taken as arbitrary inputs here, which
only strengthens statements quantified over them. -/
def parseUA (uaBrowserName uaOSName : Option String) : String × String :=
  (normalizeBrowser uaBrowserName, normalizeOS uaOSName)

/-- The resolved per-request labels (§3 ClientContext). -/
structure ClientContext where
  country : String
  browser : String
  os : String
deriving DecidableEq

/-! ## Metric instruments and the telemetry handlers -/

/-- Modelled from the spec: the three `prom-client` instruments declared on
`index.js` lines 27-41 are external-library objects; §3 defines each as "a
mapping from a label tuple to a numeric value". `view_start_total` is keyed by
(camera_id, country, browser, os); the gauge and the seconds counter by
(camera_id, country). The gauge ranges over ℤ (it "may go negative", §3); the
seconds counter accumulates the caller-supplied duration, on which the source
imposes no bound or sanity check (§9). -/
structure Metrics where
  viewStartTotal : String × String × String × String → ℕ
  viewersCurrent : String × String → ℤ
  viewSecondsTotal : String × String → ℚ

/-- Point update of a labelled instrument: add `v` at key `k`. -/
def bump {α β : Type} [DecidableEq α] [Add β] (f : α → β) (k : α) (v : β) :
    α → β :=
  fun x => if x = k then f x + v else f x

/-- The metric updates of `POST /view-start` (`index.js` lines 189-190),
named after the spec's aggregator operation (§4.3):
`viewStartCounter.inc({camera_id, country, browser, os})` and
`viewersGauge.inc({camera_id, country})`. -/
def recordViewStart (camera : String) (ctx : ClientContext) (m : Metrics) : Metrics :=
  { m with
    viewStartTotal :=
      bump m.viewStartTotal (camera, ctx.country, ctx.browser, ctx.os) 1,
    viewersCurrent := bump m.viewersCurrent (camera, ctx.country) 1 }

/-- The metric update of `POST /heartbeat` (`index.js` line 207):
`viewSecondsCounter.inc({camera_id, country}, seconds)`. -/
def recordHeartbeat (camera : String) (ctx : ClientContext) (seconds : ℚ)
    (m : Metrics) : Metrics :=
  { m with
    viewSecondsTotal := bump m.viewSecondsTotal (camera, ctx.country) seconds }

/-- The metric update of `POST /view-end` (`index.js` line 223):
`viewersGauge.dec({camera_id, country})`. -/
def recordViewEnd (camera : String) (ctx : ClientContext) (m : Metrics) : Metrics :=
  { m with viewersCurrent := bump m.viewersCurrent (camera, ctx.country) (-1) }

/-- A telemetry response: HTTP 400 with an error body, or HTTP 204 with no
body. -/
inductive TelemetryResponse where
  | badRequest (msg : String)
  | noContent
deriving DecidableEq

/-- A telemetry request body: `camera_id` and (used only by `/heartbeat`)
`seconds`, each possibly absent. -/
structure TelemetryBody where
  camera_id : Option String
  seconds : Option ℚ
deriving DecidableEq

/-- The request metadata the telemetry handlers read: the forwarded-for
header, the socket peer address, and the browser/OS names the external UA
parser extracts from the user-agent header. -/
structure ClientInfo where
  xff : Option String
  remoteAddress : Option String
  uaBrowserName : Option String
  uaOSName : Option String

/-- The missing-camera_id error body (`index.js` lines 184, 203, 219). -/
def cameraIdErrorMsg : String := "camera_id is required"

/-- `POST /view-start` (`index.js` lines 181-192): reject a falsy `camera_id`
with 400, else resolve the client context and apply `recordViewStart`. -/
def viewStartHandler (geoReader : Option (String → Option String))
    (req : ClientInfo) (body : TelemetryBody) (m : Metrics) :
    TelemetryResponse × Metrics :=
  match body.camera_id with
  | none => (.badRequest cameraIdErrorMsg, m)
  | some c =>
    if c = "" then (.badRequest cameraIdErrorMsg, m)
    else
      let ip := getClientIp req.xff req.remoteAddress
      let country := getCountry geoReader ip
      let ua := parseUA req.uaBrowserName req.uaOSName
      (.noContent, recordViewStart c ⟨country, ua.1, ua.2⟩ m)

/-- `POST /heartbeat` (`index.js` lines 200-209): reject a falsy `camera_id`
with 400, else apply `recordHeartbeat` with the destructuring default
`seconds = 10` when the field is absent. -/
def heartbeatHandler (geoReader : Option (String → Option String))
    (req : ClientInfo) (body : TelemetryBody) (m : Metrics) :
    TelemetryResponse × Metrics :=
  match body.camera_id with
  | none => (.badRequest cameraIdErrorMsg, m)
  | some c =>
    if c = "" then (.badRequest cameraIdErrorMsg, m)
    else
      let ip := getClientIp req.xff req.remoteAddress
      let country := getCountry geoReader ip
      (.noContent, recordHeartbeat c ⟨country, "", ""⟩ (body.seconds.getD 10) m)

/-- `POST /view-end` (`index.js` lines 216-225): reject a falsy `camera_id`
with 400, else apply `recordViewEnd`. -/
def viewEndHandler (geoReader : Option (String → Option String))
    (req : ClientInfo) (body : TelemetryBody) (m : Metrics) :
    TelemetryResponse × Metrics :=
  match body.camera_id with
  | none => (.badRequest cameraIdErrorMsg, m)
  | some c =>
    if c = "" then (.badRequest cameraIdErrorMsg, m)
    else
      let ip := getClientIp req.xff req.remoteAddress
      let country := getCountry geoReader ip
      (.noContent, recordViewEnd c ⟨country, "", ""⟩ m)

/-! ## Interleaved telemetry operation sequences (for the gauge invariant) -/

/-- One aggregator operation, as dispatched by the three telemetry
endpoints. -/
inductive TelemetryOp where
  | start (camera : String) (ctx : ClientContext)
  | stop (camera : String) (ctx : ClientContext)
  | heartbeat (camera : String) (ctx : ClientContext) (seconds : ℚ)

/-- Apply one operation to the metric state. -/
def applyOp (m : Metrics) : TelemetryOp → Metrics
  | .start c ctx => recordViewStart c ctx m
  | .stop c ctx => recordViewEnd c ctx m
  | .heartbeat c ctx s => recordHeartbeat c ctx s m

/-- Apply a sequence of operations in order. -/
def applyOps (m : Metrics) : List TelemetryOp → Metrics
  | [] => m
  | op :: rest => applyOps (applyOp m op) rest

/-- How many `recordViewStart` calls in the sequence hit the gauge key
`(camera, country)`. -/
def startCount (camera country : String) (ops : List TelemetryOp) : ℕ :=
  ops.countP fun op =>
    match op with
    | .start c ctx => c = camera ∧ ctx.country = country
    | _ => false

/-- How many `recordViewEnd` calls in the sequence hit the gauge key
`(camera, country)`. -/
def endCount (camera country : String) (ops : List TelemetryOp) : ℕ :=
  ops.countP fun op =>
    match op with
    | .stop c ctx => c = camera ∧ ctx.country = country
    | _ => false

/-! ## Concrete fixtures (used by witness instantiations) -/

/-- The all-zero metric state a fresh process starts from (label combinations
are created lazily on first observation, §3). -/
def initialMetrics : Metrics :=
  { viewStartTotal := fun _ => 0, viewersCurrent := fun _ => 0,
    viewSecondsTotal := fun _ => 0 }

/-- A request with no forwarded-for header, no peer address and no parsed
user-agent names. -/
def noClient : ClientInfo :=
  { xff := none, remoteAddress := none, uaBrowserName := none, uaOSName := none }

/-- A resolved context fixture. -/
def ctxUS : ClientContext := { country := "US", browser := "Chrome", os := "Linux" }

/-- A second resolved context fixture (different country). -/
def ctxDE : ClientContext := { country := "DE", browser := "Firefox", os := "Windows" }

/-- The §8 scenario camera: "cam1" at (10.0, 20.0), role "traffic". -/
def cam1 : Camera :=
  { id := "cam1", name := "Camera 1", role := "traffic",
    streamUrl := "rtsp://example/cam1", isActive := true,
    videoProfile := "H264 Main", width := 640, height := 480, fps := 15,
    audioEnabled := false, lastStatus := none, lastChecked := none,
    lng := 10, lat := 20 }

/-- The §8 scenario camera: "cam2" at (50.0, 60.0), role "perimeter". -/
def cam2 : Camera :=
  { id := "cam2", name := "Camera 2", role := "perimeter",
    streamUrl := "rtsp://example/cam2", isActive := true,
    videoProfile := "H264 Main", width := 640, height := 480, fps := 15,
    audioEnabled := false, lastStatus := none, lastChecked := none,
    lng := 50, lat := 60 }

/-- A camera whose role differs from "traffic" only in case. -/
def camMixedCase : Camera :=
  { id := "cam3", name := "Camera 3", role := "Traffic",
    streamUrl := "rtsp://example/cam3", isActive := true,
    videoProfile := "H264 Main", width := 640, height := 480, fps := 15,
    audioEnabled := false, lastStatus := none, lastChecked := none,
    lng := 10, lat := 20 }

/-! ## Lemmas about the query builder -/

theorem bboxClause_error (parts : List JSNum)
    (h : parts.length ≠ 4 ∨ ∃ p ∈ parts, p = JSNum.nan) :
    bboxClause parts = .error bboxErrorMsg := by
  match parts with
  | [] => rfl
  | [_] => rfl
  | [_, _] => rfl
  | [_, _, _] => rfl
  | _ :: _ :: _ :: _ :: _ :: _ => rfl
  | [a, b, c, d] =>
    rcases h with h | ⟨p, hp, rfl⟩
    · simp at h
    · simp only [List.mem_cons, List.not_mem_nil, or_false] at hp
      have hcond : a = JSNum.nan ∨ b = JSNum.nan ∨ c = JSNum.nan ∨ d = JSNum.nan := by
        rcases hp with h | h | h | h
        · exact Or.inl h.symm
        · exact Or.inr (Or.inl h.symm)
        · exact Or.inr (Or.inr (Or.inl h.symm))
        · exact Or.inr (Or.inr (Or.inr h.symm))
      simp only [bboxClause]
      rw [if_pos hcond]

theorem buildCamerasQuery_bbox_error (s : String) (role : Option String)
    (hs : s ≠ "")
    (h : bboxClause ((jsSplitComma s).map jsStringToNumber) = .error bboxErrorMsg) :
    buildCamerasQuery (some s) role = .error bboxErrorMsg := by
  simp [buildCamerasQuery, hs, h]

/-- C1: a truthy `bbox` query string whose comma-split, `Number`-coerced parts
do not form exactly four non-`NaN` values makes `GET /api/cameras` answer the
HTTP 400 caller error, for every catalog — in particular the store's contents
never influence the response, so no (partial) query is run. (A `bbox` equal to
the empty string is falsy and is the separate case of C10.) -/
theorem camerasList_bbox_rejected (catalog : List Camera) (role : Option String)
    (s : String) (hs : s ≠ "")
    (h : ((jsSplitComma s).map jsStringToNumber).length ≠ 4 ∨
      ∃ p ∈ (jsSplitComma s).map jsStringToNumber, p = JSNum.nan) :
    listCamerasHandler catalog (some s) role =
      CamerasListResponse.badRequest bboxErrorMsg := by
  unfold listCamerasHandler
  rw [buildCamerasQuery_bbox_error s role hs (bboxClause_error _ h)]

/-- C1 counterexample: the empty string is a supplied bbox query string whose
comma-separated decomposition has one component (not four), yet the handler
answers the catalog, not an HTTP 400 — an empty `bbox` is falsy and skips
validation entirely (`if (bbox)` on `index.js` line 117). -/
theorem camerasList_empty_bbox_not_rejected :
    ((jsSplitComma "").map jsStringToNumber).length = 1 ∧
    listCamerasHandler [cam1] (some "") none =
      CamerasListResponse.ok [projectListRow cam1] ∧
    ∀ msg, CamerasListResponse.ok [projectListRow cam1] ≠
      CamerasListResponse.badRequest msg :=
  ⟨by decide, by decide, fun _ h => nomatch h⟩

/-- C1 witness: `bbox=1,2,3` (three components) is rejected with the 400 body
on a nonempty catalog. -/
theorem camerasList_bbox_rejected_witness :
    (("1,2,3" : String) ≠ "" ∧
      ((jsSplitComma "1,2,3").map jsStringToNumber).length ≠ 4) ∧
    listCamerasHandler [cam1, cam2] (some "1,2,3") none =
      CamerasListResponse.badRequest bboxErrorMsg :=
  ⟨by decide,
   camerasList_bbox_rejected [cam1, cam2] none "1,2,3" (by decide)
     (Or.inl (by decide))⟩

/-! ## Lemmas about the telemetry aggregator -/

/-- Running any interleaved operation sequence moves the gauge at a key by
exactly (starts at that key) − (ends at that key). -/
theorem viewersCurrent_applyOps (camera country : String) :
    ∀ (ops : List TelemetryOp) (m : Metrics),
      (applyOps m ops).viewersCurrent (camera, country) =
        m.viewersCurrent (camera, country) +
          (startCount camera country ops : ℤ) - (endCount camera country ops : ℤ) := by
  intro ops
  induction ops with
  | nil =>
    intro m
    simp [applyOps, startCount, endCount]
  | cons op rest ih =>
    intro m
    cases op with
    | start c2 ctx =>
      have hkey : ((camera, country) = (c2, ctx.country)) ↔
          (c2 = camera ∧ ctx.country = country) := by
        rw [Prod.mk.injEq]
        constructor
        · rintro ⟨h1, h2⟩; exact ⟨h1.symm, h2.symm⟩
        · rintro ⟨h1, h2⟩; exact ⟨h1.symm, h2.symm⟩
      simp only [applyOps, applyOp, startCount, endCount, List.countP_cons] at *
      rw [ih]
      simp only [recordViewStart, bump]
      by_cases hc : c2 = camera ∧ ctx.country = country
      · rw [if_pos (hkey.mpr hc)]
        rw [if_pos (show (decide (c2 = camera ∧ ctx.country = country)) = true by
          simp [hc])]
        push_cast
        ring
      · rw [if_neg (fun h => hc (hkey.mp h))]
        rw [if_neg (show ¬ (decide (c2 = camera ∧ ctx.country = country)) = true by
          simp [hc])]
        push_cast
        ring
    | stop c2 ctx =>
      have hkey : ((camera, country) = (c2, ctx.country)) ↔
          (c2 = camera ∧ ctx.country = country) := by
        rw [Prod.mk.injEq]
        constructor
        · rintro ⟨h1, h2⟩; exact ⟨h1.symm, h2.symm⟩
        · rintro ⟨h1, h2⟩; exact ⟨h1.symm, h2.symm⟩
      simp only [applyOps, applyOp, startCount, endCount, List.countP_cons] at *
      rw [ih]
      simp only [recordViewEnd, bump]
      by_cases hc : c2 = camera ∧ ctx.country = country
      · rw [if_pos (hkey.mpr hc)]
        rw [if_pos (show (decide (c2 = camera ∧ ctx.country = country)) = true by
          simp [hc])]
        push_cast
        ring
      · rw [if_neg (fun h => hc (hkey.mp h))]
        rw [if_neg (show ¬ (decide (c2 = camera ∧ ctx.country = country)) = true by
          simp [hc])]
        push_cast
        ring
    | heartbeat c2 ctx s =>
      simp only [applyOps, applyOp, startCount, endCount, List.countP_cons] at *
      rw [ih]
      simp [recordHeartbeat]

/-- C3: `recordViewStart` increments both `view_start_total` at
(camera, country, browser, os) and `viewers_current` at (camera, country) by
exactly 1, `recordViewEnd` decrements the gauge by exactly 1, and any
operation sequence containing equally many starts and ends for a given
(camera, country) key — interleaved arbitrarily with operations on other
cameras, contexts, or heartbeats — leaves the gauge at that key at its
initial value. -/
theorem viewStart_viewEnd_gauge_balanced (m : Metrics) (camera : String)
    (ctx : ClientContext) (ops : List TelemetryOp) (key : String × String)
    (h : startCount key.1 key.2 ops = endCount key.1 key.2 ops) :
    ((recordViewStart camera ctx m).viewStartTotal
        (camera, ctx.country, ctx.browser, ctx.os) =
      m.viewStartTotal (camera, ctx.country, ctx.browser, ctx.os) + 1) ∧
    ((recordViewStart camera ctx m).viewersCurrent (camera, ctx.country) =
      m.viewersCurrent (camera, ctx.country) + 1) ∧
    ((recordViewEnd camera ctx m).viewersCurrent (camera, ctx.country) =
      m.viewersCurrent (camera, ctx.country) - 1) ∧
    (applyOps m ops).viewersCurrent key = m.viewersCurrent key := by
  refine ⟨?_, ?_, ?_, ?_⟩
  · simp [recordViewStart, bump]
  · simp [recordViewStart, bump]
  · simp [recordViewEnd, bump]
    ring
  · rw [show key = (key.1, key.2) from rfl, viewersCurrent_applyOps, h]
    ring

/-- C3 witness: two starts and two ends for ("cam1", US-context), interleaved
with a start for another camera, a start/end pair in another country and a
heartbeat, leave the ("cam1", "US") gauge at its initial value (and one
start bumps both instruments by 1 at the fresh state). -/
theorem viewStart_viewEnd_gauge_balanced_witness :
    (startCount "cam1" "US"
        [TelemetryOp.start "cam1" ctxUS, TelemetryOp.start "cam2" ctxUS,
         TelemetryOp.stop "cam1" ctxUS, TelemetryOp.heartbeat "cam1" ctxUS 10,
         TelemetryOp.start "cam1" ctxDE, TelemetryOp.stop "cam1" ctxDE,
         TelemetryOp.start "cam1" ctxUS, TelemetryOp.stop "cam1" ctxUS] =
      endCount "cam1" "US"
        [TelemetryOp.start "cam1" ctxUS, TelemetryOp.start "cam2" ctxUS,
         TelemetryOp.stop "cam1" ctxUS, TelemetryOp.heartbeat "cam1" ctxUS 10,
         TelemetryOp.start "cam1" ctxDE, TelemetryOp.stop "cam1" ctxDE,
         TelemetryOp.start "cam1" ctxUS, TelemetryOp.stop "cam1" ctxUS]) ∧
    (((recordViewStart "cam1" ctxUS initialMetrics).viewStartTotal
        ("cam1", ctxUS.country, ctxUS.browser, ctxUS.os) =
      initialMetrics.viewStartTotal
        ("cam1", ctxUS.country, ctxUS.browser, ctxUS.os) + 1) ∧
    ((recordViewStart "cam1" ctxUS initialMetrics).viewersCurrent
        ("cam1", ctxUS.country) =
      initialMetrics.viewersCurrent ("cam1", ctxUS.country) + 1) ∧
    ((recordViewEnd "cam1" ctxUS initialMetrics).viewersCurrent
        ("cam1", ctxUS.country) =
      initialMetrics.viewersCurrent ("cam1", ctxUS.country) - 1) ∧
    (applyOps initialMetrics
        [TelemetryOp.start "cam1" ctxUS, TelemetryOp.start "cam2" ctxUS,
         TelemetryOp.stop "cam1" ctxUS, TelemetryOp.heartbeat "cam1" ctxUS 10,
         TelemetryOp.start "cam1" ctxDE, TelemetryOp.stop "cam1" ctxDE,
         TelemetryOp.start "cam1" ctxUS, TelemetryOp.stop "cam1" ctxUS]).viewersCurrent
        ("cam1", "US") =
      initialMetrics.viewersCurrent ("cam1", "US")) :=
  ⟨by decide,
   viewStart_viewEnd_gauge_balanced initialMetrics "cam1" ctxUS _ ("cam1", "US")
     (by decide)⟩

/-- C5: browser/OS resolution is total and idempotent — whatever the external
user-agent parser produces for any user-agent string (any optional name pair,
including absent or unparsable results), the resolved browser is one of
{Chrome, Firefox, Safari, Edge, Other} and the resolved OS one of
{Windows, macOS, iOS, Android, Linux, Other}, and re-normalizing an
already-normalized value leaves it unchanged. -/
theorem parseUA_total_idempotent (b o : Option String) :
    (parseUA b o).1 ∈ knownBrowsers ++ ["Other"] ∧
    (parseUA b o).2 ∈ knownOS ++ ["Other"] ∧
    normalizeBrowser (some (normalizeBrowser b)) = normalizeBrowser b ∧
    normalizeOS (some (normalizeOS o)) = normalizeOS o := by
  refine ⟨?_, ?_, ?_, ?_⟩
  · show normalizeBrowser b ∈ _
    by_cases h : nameOrOther b ∈ knownBrowsers
    · simp [normalizeBrowser, h]
    · simp [normalizeBrowser, h]
  · show normalizeOS o ∈ _
    by_cases h : nameOrOther o ∈ knownOS
    · simp [normalizeOS, h]
    · simp [normalizeOS, h]
  · by_cases h : nameOrOther b ∈ knownBrowsers
    · have hx : normalizeBrowser b = nameOrOther b := by simp [normalizeBrowser, h]
      have hne : nameOrOther b ≠ "" := by
        intro he
        rw [he] at h
        revert h
        decide
      have hgen : ∀ x : String, x ≠ "" → nameOrOther (some x) = x := by
        intro x hx
        simp [nameOrOther, hx]
      have h2 : nameOrOther (some (nameOrOther b)) = nameOrOther b := hgen _ hne
      rw [hx]
      simp only [normalizeBrowser, h2]
      rw [if_pos h]
    · have hx : normalizeBrowser b = "Other" := by simp [normalizeBrowser, h]
      rw [hx]
      decide
  · by_cases h : nameOrOther o ∈ knownOS
    · have hx : normalizeOS o = nameOrOther o := by simp [normalizeOS, h]
      have hne : nameOrOther o ≠ "" := by
        intro he
        rw [he] at h
        revert h
        decide
      have hgen : ∀ x : String, x ≠ "" → nameOrOther (some x) = x := by
        intro x hx
        simp [nameOrOther, hx]
      have h2 : nameOrOther (some (nameOrOther o)) = nameOrOther o := hgen _ hne
      rw [hx]
      simp only [normalizeOS, h2]
      rw [if_pos h]
    · have hx : normalizeOS o = "Other" := by simp [normalizeOS, h]
      rw [hx]
      decide

/-- C6: a heartbeat with a truthy `camera_id` succeeds and adds exactly the
caller-supplied `seconds` — exactly 10 when the field is omitted — to
`view_seconds_total` at (camera, country), leaving every other key
unchanged. -/
theorem heartbeat_increments_seconds (geoReader : Option (String → Option String))
    (req : ClientInfo) (body : TelemetryBody) (m : Metrics) (c : String)
    (hc : body.camera_id = some c) (hne : c ≠ "") :
    ((heartbeatHandler geoReader req body m).1 = TelemetryResponse.noContent) ∧
    ((heartbeatHandler geoReader req body m).2.viewSecondsTotal
        (c, getCountry geoReader (getClientIp req.xff req.remoteAddress)) =
      m.viewSecondsTotal
        (c, getCountry geoReader (getClientIp req.xff req.remoteAddress)) +
        body.seconds.getD 10) ∧
    (body.seconds = none →
      (heartbeatHandler geoReader req body m).2.viewSecondsTotal
          (c, getCountry geoReader (getClientIp req.xff req.remoteAddress)) =
        m.viewSecondsTotal
          (c, getCountry geoReader (getClientIp req.xff req.remoteAddress)) + 10) ∧
    (∀ s : ℚ, body.seconds = some s →
      (heartbeatHandler geoReader req body m).2.viewSecondsTotal
          (c, getCountry geoReader (getClientIp req.xff req.remoteAddress)) =
        m.viewSecondsTotal
          (c, getCountry geoReader (getClientIp req.xff req.remoteAddress)) + s) ∧
    (∀ k, k ≠ (c, getCountry geoReader (getClientIp req.xff req.remoteAddress)) →
      (heartbeatHandler geoReader req body m).2.viewSecondsTotal k =
        m.viewSecondsTotal k) := by
  have hh : heartbeatHandler geoReader req body m =
      (TelemetryResponse.noContent,
        recordHeartbeat c
          ⟨getCountry geoReader (getClientIp req.xff req.remoteAddress), "", ""⟩
          (body.seconds.getD 10) m) := by
    unfold heartbeatHandler
    rw [hc]
    simp [hne]
  rw [hh]
  refine ⟨rfl, ?_, ?_, ?_, ?_⟩
  · simp [recordHeartbeat, bump]
  · intro hs
    simp [recordHeartbeat, bump, hs]
  · intro s hs
    simp [recordHeartbeat, bump, hs]
  · intro k hk
    simp [recordHeartbeat, bump, hk]

/-- C6 witness: an omitted `seconds` adds 10, an explicit `seconds` of 7 adds
7, at the fresh metric state. -/
theorem heartbeat_increments_seconds_witness :
    ((TelemetryBody.mk (some "cam1") none).camera_id = some "cam1" ∧
      ("cam1" : String) ≠ "" ∧
      (TelemetryBody.mk (some "cam1") (some 7)).camera_id = some "cam1") ∧
    ((heartbeatHandler none noClient ⟨some "cam1", none⟩ initialMetrics).2.viewSecondsTotal
        ("cam1", getCountry none (getClientIp noClient.xff noClient.remoteAddress)) =
      initialMetrics.viewSecondsTotal
        ("cam1", getCountry none (getClientIp noClient.xff noClient.remoteAddress)) + 10) ∧
    ((heartbeatHandler none noClient ⟨some "cam1", some 7⟩ initialMetrics).2.viewSecondsTotal
        ("cam1", getCountry none (getClientIp noClient.xff noClient.remoteAddress)) =
      initialMetrics.viewSecondsTotal
        ("cam1", getCountry none (getClientIp noClient.xff noClient.remoteAddress)) + 7) :=
  ⟨⟨rfl, by decide, rfl⟩,
   (heartbeat_increments_seconds none noClient ⟨some "cam1", none⟩ initialMetrics
      "cam1" rfl (by decide)).2.2.1 rfl,
   (heartbeat_increments_seconds none noClient ⟨some "cam1", some 7⟩ initialMetrics
      "cam1" rfl (by decide)).2.2.2.1 7 rfl⟩

/-- C7: a view-end with a truthy `camera_id` always succeeds (HTTP 204) and
decrements `viewers_current` at (camera, country) by exactly 1, with no floor:
from a zero (never-observed) gauge value the result is −1, a negative value,
and the request is still not treated as an error. -/
theorem viewEnd_decrements_unfloored (geoReader : Option (String → Option String))
    (req : ClientInfo) (body : TelemetryBody) (m : Metrics) (c : String)
    (hc : body.camera_id = some c) (hne : c ≠ "") :
    ((viewEndHandler geoReader req body m).1 = TelemetryResponse.noContent) ∧
    ((viewEndHandler geoReader req body m).2.viewersCurrent
        (c, getCountry geoReader (getClientIp req.xff req.remoteAddress)) =
      m.viewersCurrent
        (c, getCountry geoReader (getClientIp req.xff req.remoteAddress)) - 1) ∧
    (m.viewersCurrent
        (c, getCountry geoReader (getClientIp req.xff req.remoteAddress)) = 0 →
      (viewEndHandler geoReader req body m).2.viewersCurrent
          (c, getCountry geoReader (getClientIp req.xff req.remoteAddress)) < 0) := by
  have hh : viewEndHandler geoReader req body m =
      (TelemetryResponse.noContent,
        recordViewEnd c
          ⟨getCountry geoReader (getClientIp req.xff req.remoteAddress), "", ""⟩ m) := by
    unfold viewEndHandler
    rw [hc]
    simp [hne]
  rw [hh]
  refine ⟨rfl, ?_, ?_⟩
  · simp [recordViewEnd, bump]
    ring
  · intro h0
    simp [recordViewEnd, bump, h0]

/-- C7 witness: a view-end for a key whose gauge was never observed (fresh
state, value 0) succeeds and leaves the gauge at −1. -/
theorem viewEnd_decrements_unfloored_witness :
    ((TelemetryBody.mk (some "cam1") none).camera_id = some "cam1" ∧
      ("cam1" : String) ≠ "" ∧
      initialMetrics.viewersCurrent
        ("cam1", getCountry none (getClientIp noClient.xff noClient.remoteAddress)) = 0) ∧
    ((viewEndHandler none noClient ⟨some "cam1", none⟩ initialMetrics).1 =
      TelemetryResponse.noContent) ∧
    (viewEndHandler none noClient ⟨some "cam1", none⟩ initialMetrics).2.viewersCurrent
        ("cam1", getCountry none (getClientIp noClient.xff noClient.remoteAddress)) < 0 :=
  ⟨⟨rfl, by decide, rfl⟩,
   (viewEnd_decrements_unfloored none noClient ⟨some "cam1", none⟩ initialMetrics
      "cam1" rfl (by decide)).1,
   (viewEnd_decrements_unfloored none noClient ⟨some "cam1", none⟩ initialMetrics
      "cam1" rfl (by decide)).2.2 rfl⟩

/-- C9 counterexample: the body `{"camera_id": ""}` has `camera_id` present,
yet all three telemetry endpoints reject it with the 400 caller error — the
claim that a telemetry call with `camera_id` present always succeeds is false
(the handlers test JavaScript truthiness, not presence). -/
theorem telemetry_empty_camera_id_rejected :
    ((TelemetryBody.mk (some "") none).camera_id.isSome = true) ∧
    (viewStartHandler none noClient ⟨some "", none⟩ initialMetrics).1 =
      TelemetryResponse.badRequest cameraIdErrorMsg ∧
    (heartbeatHandler none noClient ⟨some "", none⟩ initialMetrics).1 =
      TelemetryResponse.badRequest cameraIdErrorMsg ∧
    (viewEndHandler none noClient ⟨some "", none⟩ initialMetrics).1 =
      TelemetryResponse.badRequest cameraIdErrorMsg ∧
    TelemetryResponse.badRequest cameraIdErrorMsg ≠ TelemetryResponse.noContent :=
  ⟨rfl, rfl, rfl, rfl, by decide⟩

/-- C9 (amended): a telemetry call succeeds (empty-body HTTP 204) if and only
if its `camera_id` is truthy — present and non-empty; no other caller-supplied
field (such as the heartbeat `seconds`) and no downstream resolution outcome
(geolocation reader, forwarded-for header, user-agent names) affects whether
it succeeds. -/
theorem telemetry_success_iff_truthy_camera_id
    (geoReader : Option (String → Option String)) (req : ClientInfo)
    (body : TelemetryBody) (m : Metrics) :
    ((viewStartHandler geoReader req body m).1 = TelemetryResponse.noContent ↔
      truthy body.camera_id = true) ∧
    ((heartbeatHandler geoReader req body m).1 = TelemetryResponse.noContent ↔
      truthy body.camera_id = true) ∧
    ((viewEndHandler geoReader req body m).1 = TelemetryResponse.noContent ↔
      truthy body.camera_id = true) := by
  obtain ⟨cid, secs⟩ := body
  cases cid with
  | none =>
    simp [viewStartHandler, heartbeatHandler, viewEndHandler, truthy]
  | some c =>
    by_cases hc : c = ""
    · subst hc
      simp [viewStartHandler, heartbeatHandler, viewEndHandler, truthy]
    · simp [viewStartHandler, heartbeatHandler, viewEndHandler, truthy, hc]

/-- C10: a supplied-but-empty `bbox` is falsy and skips both the
four-component validation and the envelope predicate, and an empty `role`
skips the role predicate — so `bbox=""`/`role=""` behave exactly like absent
parameters, and with both empty the whole catalog comes back instead of a
caller error. -/
theorem empty_params_treated_as_absent (catalog : List Camera)
    (bbox role : Option String) :
    (listCamerasHandler catalog (some "") role = listCamerasHandler catalog none role) ∧
    (listCamerasHandler catalog bbox (some "") = listCamerasHandler catalog bbox none) ∧
    (listCamerasHandler catalog (some "") (some "") =
      CamerasListResponse.ok (catalog.map projectListRow)) := by
  refine ⟨?_, ?_, ?_⟩
  · simp [listCamerasHandler, buildCamerasQuery]
  · cases bbox with
    | none => simp [listCamerasHandler, buildCamerasQuery]
    | some s =>
      by_cases hs : s = ""
      · subst hs
        simp [listCamerasHandler, buildCamerasQuery]
      · cases hb : bboxClause ((jsSplitComma s).map jsStringToNumber) with
        | error e => simp [listCamerasHandler, buildCamerasQuery, hs, hb]
        | ok cl => simp [listCamerasHandler, buildCamerasQuery, hs, hb]
  · have hall : (fun cam => List.all [] (evalClause cam)) = fun _ => true := rfl
    simp [listCamerasHandler, buildCamerasQuery, runCamerasQuery, hall]

/-! ## Membership characterization for the list query -/

theorem mem_runCamerasQuery (catalog : List Camera) (cls : List WhereClause)
    (row : ListRow) :
    row ∈ runCamerasQuery catalog cls ↔
      ∃ cam ∈ catalog, cls.all (evalClause cam) = true ∧ projectListRow cam = row := by
  simp only [runCamerasQuery, List.mem_map, List.mem_filter]
  constructor
  · rintro ⟨cam, ⟨hmem, hall⟩, hproj⟩
    exact ⟨cam, hmem, hall, hproj⟩
  · rintro ⟨cam, hmem, hall, hproj⟩
    exact ⟨cam, ⟨hmem, hall⟩, hproj⟩

theorem evalClause_envelope_eq (a b c d : ℚ) (cam : Camera) :
    evalClause cam
        (WhereClause.containsEnvelope (.num a) (.num b) (.num c) (.num d)) = true ↔
      (a ≤ cam.lng ∧ cam.lng ≤ c ∧ b ≤ cam.lat ∧ cam.lat ≤ d) := by
  simp only [evalClause, Bool.and_eq_true, decide_eq_true_eq]
  tauto

theorem evalClause_roleEq_eq (r : String) (cam : Camera) :
    evalClause cam (WhereClause.roleEq r) = true ↔ cam.role = r := by
  simp [evalClause]

theorem buildCamerasQuery_bbox_ok (s : String) (hs : s ≠ "") (a b c d : ℚ)
    (hp : (jsSplitComma s).map jsStringToNumber =
      [JSNum.num a, JSNum.num b, JSNum.num c, JSNum.num d]) :
    buildCamerasQuery (some s) none =
      .ok [WhereClause.containsEnvelope (.num a) (.num b) (.num c) (.num d)] := by
  simp [buildCamerasQuery, hs, hp, bboxClause]

theorem buildCamerasQuery_bbox_role_ok (s r : String) (hs : s ≠ "") (hr : r ≠ "")
    (a b c d : ℚ)
    (hp : (jsSplitComma s).map jsStringToNumber =
      [JSNum.num a, JSNum.num b, JSNum.num c, JSNum.num d]) :
    buildCamerasQuery (some s) (some r) =
      .ok [WhereClause.containsEnvelope (.num a) (.num b) (.num c) (.num d),
           WhereClause.roleEq r] := by
  simp [buildCamerasQuery, hs, hr, hp, bboxClause]

theorem buildCamerasQuery_role_ok (r : String) (hr : r ≠ "") :
    buildCamerasQuery none (some r) = .ok [WhereClause.roleEq r] := by
  simp [buildCamerasQuery, hr]

/-- C2: for a truthy `bbox` that coerces to four numbers forming a valid
viewport (min ≤ max on both axes) and no role filter, the handler succeeds,
every returned row's point lies inside or on the boundary of the closed
envelope whose lower-left corner is the first two numbers and upper-right
corner the last two, and a catalog camera's row is returned iff its point
satisfies exactly that closed containment — cameras strictly outside are
excluded. -/
theorem camerasList_viewport_envelope (catalog : List Camera) (s : String)
    (a b c d : ℚ) (hs : s ≠ "")
    (hp : (jsSplitComma s).map jsStringToNumber =
      [JSNum.num a, JSNum.num b, JSNum.num c, JSNum.num d])
    (hx : a ≤ c) (hy : b ≤ d) :
    (∃ rows, listCamerasHandler catalog (some s) none =
      CamerasListResponse.ok rows) ∧
    (∀ row ∈ rowsOf (listCamerasHandler catalog (some s) none),
      a ≤ row.lng ∧ row.lng ≤ c ∧ b ≤ row.lat ∧ row.lat ≤ d) ∧
    (∀ cam ∈ catalog,
      (projectListRow cam ∈ rowsOf (listCamerasHandler catalog (some s) none) ↔
        (a ≤ cam.lng ∧ cam.lng ≤ c ∧ b ≤ cam.lat ∧ cam.lat ≤ d))) := by
  have hr : listCamerasHandler catalog (some s) none =
      CamerasListResponse.ok (runCamerasQuery catalog
        [WhereClause.containsEnvelope (.num a) (.num b) (.num c) (.num d)]) := by
    rw [listCamerasHandler, buildCamerasQuery_bbox_ok s hs a b c d hp]
  refine ⟨⟨_, hr⟩, ?_, ?_⟩
  · intro row hrow
    rw [hr] at hrow
    simp only [rowsOf] at hrow
    rw [mem_runCamerasQuery] at hrow
    obtain ⟨cam, hmem, hall, hproj⟩ := hrow
    rw [List.all_cons, List.all_nil, Bool.and_true] at hall
    have h1 := (evalClause_envelope_eq a b c d cam).mp hall
    subst hproj
    simpa [projectListRow] using h1
  · intro cam hcam
    rw [hr]
    simp only [rowsOf]
    rw [mem_runCamerasQuery]
    constructor
    · rintro ⟨cam2, hmem2, hall2, hproj2⟩
      rw [List.all_cons, List.all_nil, Bool.and_true] at hall2
      have h1 := (evalClause_envelope_eq a b c d cam2).mp hall2
      have hlng : cam2.lng = cam.lng := congrArg ListRow.lng hproj2
      have hlat : cam2.lat = cam.lat := congrArg ListRow.lat hproj2
      rw [hlng, hlat] at h1
      exact h1
    · intro hin
      refine ⟨cam, hcam, ?_, rfl⟩
      rw [List.all_cons, List.all_nil, Bool.and_true]
      exact (evalClause_envelope_eq a b c d cam).mpr hin

unseal Rat.mul Rat.add Rat.inv Rat.sub Rat.ofScientific in
/-- C2 witness: viewport "0,0,20,30" over the §8 catalog — "cam1" at (10, 20)
is inside the envelope, "cam2" at (50, 60) is strictly outside. -/
theorem camerasList_viewport_envelope_witness :
    (("0,0,20,30" : String) ≠ "" ∧
      (jsSplitComma "0,0,20,30").map jsStringToNumber =
        [JSNum.num 0, JSNum.num 0, JSNum.num 20, JSNum.num 30] ∧
      (0 : ℚ) ≤ 20 ∧ (0 : ℚ) ≤ 30) ∧
    (∀ cam ∈ [cam1, cam2],
      (projectListRow cam ∈
          rowsOf (listCamerasHandler [cam1, cam2] (some "0,0,20,30") none) ↔
        ((0 : ℚ) ≤ cam.lng ∧ cam.lng ≤ 20 ∧ (0 : ℚ) ≤ cam.lat ∧ cam.lat ≤ 30))) :=
  ⟨⟨by decide, by decide, by decide, by decide⟩,
   (camerasList_viewport_envelope [cam1, cam2] "0,0,20,30" 0 0 20 30
      (by decide) (by decide) (by decide) (by decide)).2.2⟩

/-- C4: a truthy role filter matches by exact, case-sensitive string
equality; with both a viewport and a role the two predicates are combined by
logical AND; with neither filter the entire catalog is returned. -/
theorem camerasList_role_filter (catalog : List Camera) (r : String)
    (hr : r ≠ "") (s : String) (hs : s ≠ "") (a b c d : ℚ)
    (hp : (jsSplitComma s).map jsStringToNumber =
      [JSNum.num a, JSNum.num b, JSNum.num c, JSNum.num d]) :
    (∀ cam ∈ catalog,
      (projectListRow cam ∈ rowsOf (listCamerasHandler catalog none (some r)) ↔
        cam.role = r)) ∧
    (∀ cam ∈ catalog,
      (projectListRow cam ∈
          rowsOf (listCamerasHandler catalog (some s) (some r)) ↔
        ((a ≤ cam.lng ∧ cam.lng ≤ c ∧ b ≤ cam.lat ∧ cam.lat ≤ d) ∧
          cam.role = r))) ∧
    (listCamerasHandler catalog none none =
      CamerasListResponse.ok (catalog.map projectListRow)) := by
  refine ⟨?_, ?_, ?_⟩
  · have hq : listCamerasHandler catalog none (some r) =
        CamerasListResponse.ok (runCamerasQuery catalog [WhereClause.roleEq r]) := by
      rw [listCamerasHandler, buildCamerasQuery_role_ok r hr]
    intro cam hcam
    rw [hq]
    simp only [rowsOf]
    rw [mem_runCamerasQuery]
    constructor
    · rintro ⟨cam2, hmem2, hall2, hproj2⟩
      rw [List.all_cons, List.all_nil, Bool.and_true] at hall2
      have h1 := (evalClause_roleEq_eq r cam2).mp hall2
      have hrole : cam2.role = cam.role := congrArg ListRow.role hproj2
      rw [hrole] at h1
      exact h1
    · intro hin
      refine ⟨cam, hcam, ?_, rfl⟩
      rw [List.all_cons, List.all_nil, Bool.and_true]
      exact (evalClause_roleEq_eq r cam).mpr hin
  · have hq : listCamerasHandler catalog (some s) (some r) =
        CamerasListResponse.ok (runCamerasQuery catalog
          [WhereClause.containsEnvelope (.num a) (.num b) (.num c) (.num d),
           WhereClause.roleEq r]) := by
      rw [listCamerasHandler, buildCamerasQuery_bbox_role_ok s r hs hr a b c d hp]
    intro cam hcam
    rw [hq]
    simp only [rowsOf]
    rw [mem_runCamerasQuery]
    constructor
    · rintro ⟨cam2, hmem2, hall2, hproj2⟩
      rw [List.all_cons, List.all_cons, List.all_nil, Bool.and_true,
        Bool.and_eq_true] at hall2
      have h1 := (evalClause_envelope_eq a b c d cam2).mp hall2.1
      have h2 := (evalClause_roleEq_eq r cam2).mp hall2.2
      have hlng : cam2.lng = cam.lng := congrArg ListRow.lng hproj2
      have hlat : cam2.lat = cam.lat := congrArg ListRow.lat hproj2
      have hrole : cam2.role = cam.role := congrArg ListRow.role hproj2
      rw [hlng, hlat] at h1
      rw [hrole] at h2
      exact ⟨h1, h2⟩
    · rintro ⟨hin, hrole⟩
      refine ⟨cam, hcam, ?_, rfl⟩
      rw [List.all_cons, List.all_cons, List.all_nil, Bool.and_true,
        Bool.and_eq_true]
      exact ⟨(evalClause_envelope_eq a b c d cam).mpr hin,
        (evalClause_roleEq_eq r cam).mpr hrole⟩
  · have hall : (fun cam => List.all [] (evalClause cam)) = fun _ => true := rfl
    simp [listCamerasHandler, buildCamerasQuery, runCamerasQuery, hall]

unseal Rat.mul Rat.add Rat.inv Rat.sub Rat.ofScientific in
/-- C4 witness: with the role filter "traffic", the camera whose role is
"Traffic" (differing only in case) is excluded, while "cam1" (role "traffic")
matches; and the role iff is exercised on a concrete two-camera catalog. -/
theorem camerasList_role_filter_witness :
    (("traffic" : String) ≠ "" ∧ ("0,0,20,30" : String) ≠ "" ∧
      (jsSplitComma "0,0,20,30").map jsStringToNumber =
        [JSNum.num 0, JSNum.num 0, JSNum.num 20, JSNum.num 30]) ∧
    (∀ cam ∈ [cam1, camMixedCase],
      (projectListRow cam ∈
          rowsOf (listCamerasHandler [cam1, camMixedCase] none (some "traffic")) ↔
        cam.role = "traffic")) ∧
    projectListRow camMixedCase ∉
      rowsOf (listCamerasHandler [cam1, camMixedCase] none (some "traffic")) :=
  ⟨⟨by decide, by decide, by decide⟩,
   (camerasList_role_filter [cam1, camMixedCase] "traffic" (by decide)
      "0,0,20,30" (by decide) 0 0 20 30 (by decide)).1,
   fun h =>
     absurd
       (((camerasList_role_filter [cam1, camMixedCase] "traffic" (by decide)
            "0,0,20,30" (by decide) 0 0 20 30 (by decide)).1 camMixedCase
          (by simp)).mp h)
       (by decide)⟩

/-- C8: the single-camera lookup returns, when some catalog record has the
requested id, an HTTP 200 with a full matching record — the detail SELECT's
column list includes `stream_url` — and an HTTP 404 not-found (not a 500
internal error) when no record matches; the list SELECT's column list never
includes `stream_url`. -/
theorem cameraDetail_lookup (catalog : List Camera) (id : String) :
    ((∃ cam ∈ catalog, cam.id = id) →
      ∃ cam ∈ catalog, cam.id = id ∧
        getCameraHandler catalog id = CameraDetailResponse.ok cam) ∧
    ((∀ cam ∈ catalog, cam.id ≠ id) →
      getCameraHandler catalog id = CameraDetailResponse.notFound ∧
      detailStatus (getCameraHandler catalog id) = 404 ∧
      detailStatus (getCameraHandler catalog id) ≠ 500) ∧
    ("stream_url" ∈ cameraDetailColumns ∧ "stream_url" ∉ camerasListColumns) := by
  refine ⟨?_, ?_, by decide, by decide⟩
  · rintro ⟨cam, hmem, hid⟩
    cases hfe : catalog.filter (fun c2 => c2.id = id) with
    | nil =>
      exfalso
      have hin : cam ∈ catalog.filter (fun c2 => c2.id = id) :=
        List.mem_filter.mpr ⟨hmem, by simp [hid]⟩
      rw [hfe] at hin
      exact absurd hin (List.not_mem_nil cam)
    | cons c2 t =>
      have hin : c2 ∈ catalog.filter (fun c3 => c3.id = id) := by
        rw [hfe]
        exact List.mem_cons_self c2 t
      refine ⟨c2, (List.mem_filter.mp hin).1, ?_, ?_⟩
      · have := (List.mem_filter.mp hin).2
        simpa using this
      · rw [getCameraHandler, hfe]
  · intro hnone
    have hfe : catalog.filter (fun c2 => c2.id = id) = [] := by
      rw [List.filter_eq_nil_iff]
      intro cam hmem
      simp [hnone cam hmem]
    rw [getCameraHandler, hfe]
    exact ⟨rfl, rfl, by decide⟩

/-- C8 witness: on the §8 catalog, id "cam1" yields the full record (with its
stream locator) and the absent id "cam9" yields the 404 not-found. -/
theorem cameraDetail_lookup_witness :
    ((∃ cam ∈ [cam1, cam2], cam.id = "cam1") ∧
      (∀ cam ∈ [cam1, cam2], cam.id ≠ "cam9")) ∧
    (∃ cam ∈ [cam1, cam2], cam.id = "cam1" ∧
      getCameraHandler [cam1, cam2] "cam1" = CameraDetailResponse.ok cam) ∧
    (getCameraHandler [cam1, cam2] "cam9" = CameraDetailResponse.notFound ∧
      detailStatus (getCameraHandler [cam1, cam2] "cam9") = 404 ∧
      detailStatus (getCameraHandler [cam1, cam2] "cam9") ≠ 500) :=
  ⟨⟨by decide, by decide⟩,
   (cameraDetail_lookup [cam1, cam2] "cam1").1 (by decide),
   (cameraDetail_lookup [cam1, cam2] "cam9").2.1 (by decide)⟩

end CCTV
